import Mathlib

/-!
Verification of the OAuth token lifecycle against its
specification.  The definitions below are a shallow embedding of the Go
source: `TokenResponse`, `saveToken` and `buildAuthURL` come from
`src/cmd/login.go`, `loadToken` from the accounts command file
(`src/unnamed/part_001`), the `/callback` handler from
`startCallbackServer` in `src/cmd/login.go`, and `Config`/`LoadConfig`
from `src/cmd/config.go`.  JSON objects are modelled as association
lists of string keys to a small value type; filesystem reads are
modelled by an explicit file-state datatype; the I/O actions a function
performs are returned as an explicit effect trace.
-/

namespace Monzo

/-- Mini JSON value model: the persisted records in this repository only
use string and integer fields. -/
inductive Jval where
  | str : String → Jval
  | num : Int → Jval
deriving DecidableEq, Repr

/-- A decoded JSON object: an association list of keys to values.  The Go library
`encoding/json` decodes objects with these semantics for the flat
structs used here. -/
abbrev Jobj := List (String × Jval)

/-- First value bound to key `k`, as the Go field lookup does for the flat
structs in this repository. -/
def jlookup (k : String) : Jobj → Option Jval
  | [] => none
  | (k', v) :: rest => if k' = k then some v else jlookup k rest

/-- Go `json.Unmarshal` semantics for a `string` struct field: a missing
key leaves the zero value `""`, a string value is taken as is, and a
value of the wrong type is a decode error. -/
def getStrField (o : Jobj) (k : String) : Option String :=
  match jlookup k o with
  | none => some ""
  | some (.str s) => some s
  | some (.num _) => none

/-- Go `json.Unmarshal` semantics for an `int` struct field: a missing
key leaves the zero value `0`, a number is taken as is, and a value of
the wrong type is a decode error. -/
def getIntField (o : Jobj) (k : String) : Option Int :=
  match jlookup k o with
  | none => some 0
  | some (.num n) => some n
  | some (.str _) => none

/-- `TokenResponse` from `src/cmd/login.go`: the OAuth token response
persisted to `token.json`.  Field names follow the Go struct; the JSON
keys are the struct tags (`access_token`, `token_type`, `expires_in`,
`refresh_token` with `omitempty`, `scope`, `user_id`). -/
structure TokenResponse where
  AccessToken : String
  TokenType : String
  ExpiresIn : Int
  RefreshToken : String
  Scope : String
  UserID : String
deriving DecidableEq, Repr

/-- Go `json.Marshal` of a `TokenResponse` (the content `saveToken`
writes): every field under its struct-tag key, with `refresh_token`
omitted when empty (`omitempty`).  Note there is no `expires_at` key:
the Go struct has no such field. -/
def marshalTokenResponse (t : TokenResponse) : Jobj :=
  [("access_token", .str t.AccessToken),
   ("token_type", .str t.TokenType),
   ("expires_in", .num t.ExpiresIn)] ++
  (if t.RefreshToken = "" then [] else [("refresh_token", .str t.RefreshToken)]) ++
  [("scope", .str t.Scope),
   ("user_id", .str t.UserID)]

/-- Go `json.Unmarshal` of `token.json` content into a `TokenResponse`
(as `loadToken` performs): each tagged field is read, unknown keys are
ignored, missing keys keep the zero value, and a type mismatch fails
the decode. -/
def unmarshalTokenResponse (o : Jobj) : Option TokenResponse := do
  let a ← getStrField o ("access_token")
  let ty ← getStrField o ("token_type")
  let ei ← getIntField o ("expires_in")
  let r ← getStrField o ("refresh_token")
  let sc ← getStrField o ("scope")
  let u ← getStrField o ("user_id")
  pure ⟨a, ty, ei, r, sc, u⟩

/-- Content of a file as seen by a JSON decoder: either a well-formed
JSON object or content that fails to decode at all. -/
inductive FileContent where
  | obj : Jobj → FileContent
  | malformed : FileContent
deriving DecidableEq, Repr

/-- State of a file on disk when a load routine runs: absent
(`os.IsNotExist`), present but unreadable (any other read error), or
present with some content.  The per-user config directory path itself is
assumed resolved (`os.UserHomeDir` succeeded). -/
inductive FileState where
  | absent : FileState
  | unreadable : FileState
  | present : FileContent → FileState
deriving DecidableEq, Repr

/-- Error kinds `loadToken` can surface: the `os.ReadFile` error for an
absent file (`NotFound`), any other read error, or a `json.Unmarshal`
failure. -/
inductive LoadErr where
  | notFound : LoadErr
  | readFailed : LoadErr
  | decodeFailed : LoadErr
deriving DecidableEq, Repr

/-- An observable I/O action of the embedded routines: a file read, a
file write, or an outbound HTTP request (the token endpoint or the API).
Each embedded routine returns the list of actions it performs alongside
its result. -/
inductive Eff where
  | fileRead : Eff
  | fileWrite : Eff
  | httpRequest : Eff
deriving DecidableEq, Repr

/-- `loadToken` from the accounts command file (`src/unnamed/part_001`,
lines 74-92): resolves the token path, performs exactly one
`os.ReadFile`, and on success runs `json.Unmarshal` into a
`TokenResponse`.  Every branch performs the single file read and no
other I/O: the function contains no expiry check, no refresh call and
no write. -/
def loadToken (fs : FileState) : Except LoadErr TokenResponse × List Eff :=
  match fs with
  | .absent => (.error .notFound, [.fileRead])
  | .unreadable => (.error .readFailed, [.fileRead])
  | .present .malformed => (.error .decodeFailed, [.fileRead])
  | .present (.obj o) =>
    match unmarshalTokenResponse o with
    | none => (.error .decodeFailed, [.fileRead])
    | some t => (.ok t, [.fileRead])

/-- Content written by `saveToken` in `src/cmd/login.go` on its success
path: `json.MarshalIndent` of the `TokenResponse` (indentation is
immaterial to the decoded object). -/
def saveToken (t : TokenResponse) : FileContent :=
  .obj (marshalTokenResponse t)

/-- The shape of `token.json` the tests of the repository itself write: the
embedded `TokenResponse` fields plus an `expires_at` key holding an
absolute epoch-seconds expiry (the `StoredToken` of those tests, whose
declaration is not among the provided sources).  `loadToken` decodes
such content into a plain `TokenResponse`, ignoring `expires_at`. -/
def storedTokenObj (t : TokenResponse) (expiresAt : Int) : Jobj :=
  marshalTokenResponse t ++ [("expires_at", .num expiresAt)]

/-- The fixed authorization host `monzoAuthURL` from `src/cmd/login.go`. -/
def monzoAuthURL : String := "https://auth.monzo.com"

/-- Hexadecimal digit as the `net/url` upper-case table
`"0123456789ABCDEF"` produces it. -/
def hexDigit (n : Nat) : Char :=
  if n < 10 then Char.ofNat (48 + n) else Char.ofNat (55 + n)

/-- Bytes that `net/url` in Go leaves unescaped in a query component:
alphanumerics and `-`, `_`, `.`, `~`. -/
def isUnreservedByte (b : Nat) : Bool :=
  (65 ≤ b && b ≤ 90) || (97 ≤ b && b ≤ 122) || (48 ≤ b && b ≤ 57) ||
  b == 45 || b == 95 || b == 46 || b == 126

/-- UTF-8 encoding of one character as a list of byte values; Go strings
are byte strings and `url.QueryEscape` works byte-wise. -/
def utf8Bytes (c : Char) : List Nat :=
  let n := c.toNat
  if n < 128 then [n]
  else if n < 2048 then [192 + n / 64, 128 + n % 64]
  else if n < 65536 then [224 + n / 4096, 128 + (n / 64) % 64, 128 + n % 64]
  else [240 + n / 262144, 128 + (n / 4096) % 64, 128 + (n / 64) % 64, 128 + n % 64]

/-- Escape one byte the way `url.QueryEscape` in Go does inside a query
component: space becomes `+`, unreserved bytes pass through, everything
else becomes `%XX` with upper-case hex. -/
def escapeByte (b : Nat) : List Char :=
  if b == 32 then ['+']
  else if isUnreservedByte b then [Char.ofNat b]
  else ['%', hexDigit (b / 16), hexDigit (b % 16)]

/-- The Go `url.QueryEscape` function, applied by `url.Values.Encode` to every key
and value. -/
def queryEscape (s : String) : String :=
  String.mk (List.flatten (s.data.map (fun c => List.flatten ((utf8Bytes c).map escapeByte))))

/-- `buildAuthURL` from `src/cmd/login.go`: formats
`monzoAuthURL ++ "/?" ++ params.Encode()` where the `url.Values` map
holds `client_id`, `redirect_uri`, `response_type=code` and
`state = time.Now().UnixNano()`.  `url.Values.Encode` emits the keys in
sorted order (`client_id`, `redirect_uri`, `response_type`, `state`),
escaping each value with `url.QueryEscape`; the clock reading is passed
here explicitly as `nowNanos`. -/
def buildAuthURL (clientID redirectURI : String) (nowNanos : Int) : String :=
  monzoAuthURL ++ "/?" ++
    "client_id=" ++ queryEscape clientID ++
    "&redirect_uri=" ++ queryEscape redirectURI ++
    "&response_type=code" ++
    "&state=" ++ queryEscape (toString nowNanos)

/-- Substring containment on strings, phrased over their character
data: `t` occurs contiguously inside `s`. -/
def strContains (s t : String) : Prop :=
  ∃ pre post : List Char, s.data = pre ++ t.data ++ post

/-- A query string as `url.Values` in Go sees it: key/value pairs in
request order. -/
abbrev Query := List (String × String)

/-- The Go function `url.Values.Get`: the first value bound to the key, or `""`
when the key is absent. -/
def queryGet (q : Query) (k : String) : String :=
  match q with
  | [] => ""
  | (k', v) :: rest => if k' = k then v else queryGet rest k

/-- What the `/callback` handler signals to the waiting login flow: the
authorization code on the code channel, or one of the two error values
on the error channel. -/
inductive CallbackSignal where
  | code : String → CallbackSignal
  | authError : String → String → CallbackSignal
  | noCode : CallbackSignal
deriving DecidableEq, Repr

/-- The `/callback` handler registered by `startCallbackServer` in
`src/cmd/login.go`: reads the `code` and `error` query parameters; a
non-empty `error` sends `Errorf("%s: %s", error, error_description)` on
the error channel, an empty `code` (with no error) sends the
no-authorization-code error, and otherwise the code is sent on the code
channel. -/
def callbackHandler (q : Query) : CallbackSignal :=
  let code := queryGet q ("code")
  let errorMsg := queryGet q ("error")
  if errorMsg ≠ "" then .authError errorMsg (queryGet q ("error_description"))
  else if code = "" then .noCode
  else .code code

/-- `Config` from `src/cmd/config.go`: the client credentials read from
`config.json`. -/
structure Config where
  ClientID : String
  ClientSecret : String
deriving DecidableEq, Repr

/-- Error kinds `LoadConfig` can surface: a read error other than
not-exists, or a `json.Unmarshal` failure. -/
inductive CfgErr where
  | readFailed : CfgErr
  | decodeFailed : CfgErr
deriving DecidableEq, Repr

/-- Go `json.Unmarshal` of `config.json` content into a `Config`:
tagged fields `client_id` and `client_secret`. -/
def unmarshalConfig (o : Jobj) : Option Config := do
  let i ← getStrField o ("client_id")
  let s ← getStrField o ("client_secret")
  pure ⟨i, s⟩

/-- `LoadConfig` from `src/cmd/config.go`: reads `config.json`; when the
read fails with `os.IsNotExist` it returns an empty `Config` and no
error; any other read error is returned; otherwise the content is
decoded, a decode failure being an error. -/
def LoadConfig (fs : FileState) : Except CfgErr Config :=
  match fs with
  | .absent => .ok ⟨"", ""⟩
  | .unreadable => .error .readFailed
  | .present .malformed => .error .decodeFailed
  | .present (.obj o) =>
    match unmarshalConfig o with
    | none => .error .decodeFailed
    | some c => .ok c

/-- C1: the claim says that for a stored credential whose `expires_at`
is in the past and whose refresh token is non-empty, `loadToken`
refreshes exactly once, persists the result and returns it.  The code
does no such thing: evaluated on the exact stored state the tests of
the repository write (expiry 100 seconds in the past, refresh token
present), `loadToken` returns the expired credential unchanged with an
effect trace of a single file read — no HTTP request and no write.
This contradicts the test `TestLoadTokenWithExpiredTokenNoCredentials`,
which expects the load to fail when a refresh cannot be attempted. -/
theorem C1_loadToken_returns_expired_despite_refresh_token :
    loadToken (.present (.obj (storedTokenObj
        ⟨("expired_access_token"), ("Bearer"), 21600, ("valid_refresh_token"),
          (""), ("user_123")⟩ 1759999900))) =
      (.ok ⟨("expired_access_token"), ("Bearer"), 21600, ("valid_refresh_token"),
          (""), ("user_123")⟩, [.fileRead]) := rfl

/-- C2: the claim says every credential file persisted by `saveToken`
contains an `expires_at` field computed at save time.  The marshalled
content of `saveToken` contains no `expires_at` key for any token:
the `TokenResponse` struct has no such field.  This contradicts the
test `TestSaveToken`, which requires the saved `expires_at` to be
within 5 seconds of save-time-plus-`expires_in`. -/
theorem C2_saveToken_writes_no_expires_at (t : TokenResponse) :
    jlookup ("expires_at") (marshalTokenResponse t) = none := by
  cases t with
  | mk a ty ei r sc u =>
    by_cases h : r = "" <;> simp [marshalTokenResponse, jlookup, h]

/-- Witness for C2 at the concrete token of `TestSaveToken`. -/
theorem C2_saveToken_writes_no_expires_at_witness :
    jlookup ("expires_at") (marshalTokenResponse
      ⟨("test_access_token"), ("Bearer"), 21600, ("test_refresh_token"),
        (""), ("user_123")⟩) = none :=
  C2_saveToken_writes_no_expires_at
    ⟨("test_access_token"), ("Bearer"), 21600, ("test_refresh_token"),
      (""), ("user_123")⟩

/-- C3: the claim says that for a stored credential whose `expires_at`
is in the past and whose refresh token is empty, `loadToken` fails with
an ExpiredNoRefresh-kind error.  Evaluated on exactly that stored state
(the one the test `TestLoadTokenWithExpiredTokenNoRefreshToken`
writes), `loadToken` instead succeeds and returns the expired
credential, contradicting that test, which expects an error. -/
theorem C3_loadToken_succeeds_on_expired_without_refresh :
    loadToken (.present (.obj (storedTokenObj
        ⟨("expired_access_token"), ("Bearer"), 21600, (""), (""), ("user_123")⟩
        1759999900))) =
      (.ok ⟨("expired_access_token"), ("Bearer"), 21600, (""), (""), ("user_123")⟩,
        [.fileRead]) := rfl

/-- C4: `loadToken` is total on bad input at the file boundary: an
absent credential file yields the not-found read error, content that is
not a JSON object yields a decode error, and a JSON object that does
not decode as a `TokenResponse` yields a decode error; in every case
the only I/O is the single file read. -/
theorem C4_loadToken_error_kinds :
    loadToken .absent = (.error .notFound, [.fileRead]) ∧
    loadToken (.present .malformed) = (.error .decodeFailed, [.fileRead]) ∧
    ∀ o : Jobj, unmarshalTokenResponse o = none →
      loadToken (.present (.obj o)) = (.error .decodeFailed, [.fileRead]) := by
  refine ⟨rfl, rfl, ?_⟩
  intro o h
  simp [loadToken, h]

/-- Witness for C4: a concrete object whose `access_token` field has
the wrong type fails to decode, and `loadToken` surfaces the decode
error. -/
theorem C4_loadToken_error_kinds_witness :
    unmarshalTokenResponse [(("access_token"), .num 1)] = none ∧
    loadToken (.present (.obj [(("access_token"), .num 1)])) =
      (.error .decodeFailed, [.fileRead]) :=
  ⟨by decide, C4_loadToken_error_kinds.2.2 [(("access_token"), .num 1)] (by decide)⟩

/-- C5: round-trip — saving any credential record with `saveToken` and
loading it back with `loadToken` returns exactly the record that was
saved, every field equal (the persisted record carries no
timing-derived field, so the agreement is in fact exact), with a single
file read as the only I/O. -/
theorem C5_save_load_round_trip (t : TokenResponse) :
    loadToken (.present (saveToken t)) = (.ok t, [.fileRead]) := by
  cases t with
  | mk a ty ei r sc u =>
    by_cases h : r = "" <;>
      simp [loadToken, saveToken, marshalTokenResponse, unmarshalTokenResponse,
        getStrField, getIntField, jlookup, h]

/-- C6: for every client identifier, redirect URI and clock reading,
the URL built by `buildAuthURL` contains the URL-encoded query
parameters `client_id`, `redirect_uri`, `response_type=code` and a
`state` value; in particular for client id `abc` and redirect URI
`http://localhost:8080/callback` it contains `client_id=abc`,
`response_type=code`, and the percent-encoded `redirect_uri`
parameter. -/
theorem C6_buildAuthURL_query_params :
    (∀ (cid ruri : String) (n : Int),
      strContains (buildAuthURL cid ruri n) (("client_id=") ++ queryEscape cid) ∧
      strContains (buildAuthURL cid ruri n) (("redirect_uri=") ++ queryEscape ruri) ∧
      strContains (buildAuthURL cid ruri n) ("response_type=code") ∧
      strContains (buildAuthURL cid ruri n)
        (("state=") ++ queryEscape (toString n))) ∧
    (∀ n : Int,
      strContains (buildAuthURL ("abc") ("http://localhost:8080/callback") n)
        ("client_id=abc") ∧
      strContains (buildAuthURL ("abc") ("http://localhost:8080/callback") n)
        ("response_type=code") ∧
      strContains (buildAuthURL ("abc") ("http://localhost:8080/callback") n)
        ("redirect_uri=http%3A%2F%2Flocalhost%3A8080%2Fcallback")) := by
  have hq : queryEscape ("http://localhost:8080/callback") =
      "http%3A%2F%2Flocalhost%3A8080%2Fcallback" := by decide
  have ha : queryEscape ("abc") = "abc" := by decide
  constructor
  · intro cid ruri n
    refine ⟨⟨("https://auth.monzo.com/?").data,
        (("&redirect_uri=") ++ queryEscape ruri ++ "&response_type=code" ++
          "&state=" ++ queryEscape (toString n)).data, ?_⟩,
      ⟨(("https://auth.monzo.com/?client_id=") ++ queryEscape cid ++ "&").data,
        (("&response_type=code&state=") ++ queryEscape (toString n)).data, ?_⟩,
      ⟨(("https://auth.monzo.com/?client_id=") ++ queryEscape cid ++
          "&redirect_uri=" ++ queryEscape ruri ++ "&").data,
        (("&state=") ++ queryEscape (toString n)).data, ?_⟩,
      ⟨(("https://auth.monzo.com/?client_id=") ++ queryEscape cid ++
          "&redirect_uri=" ++ queryEscape ruri ++ "&response_type=code&").data,
        [], ?_⟩⟩ <;>
      simp [strContains, buildAuthURL, monzoAuthURL, String.data_append]
  · intro n
    refine ⟨⟨("https://auth.monzo.com/?").data,
        (("&redirect_uri=http%3A%2F%2Flocalhost%3A8080%2Fcallback") ++
          "&response_type=code&state=" ++ queryEscape (toString n)).data, ?_⟩,
      ⟨("https://auth.monzo.com/?client_id=abc&redirect_uri=http%3A%2F%2Flocalhost%3A8080%2Fcallback&").data,
        (("&state=") ++ queryEscape (toString n)).data, ?_⟩,
      ⟨("https://auth.monzo.com/?client_id=abc&").data,
        (("&response_type=code&state=") ++ queryEscape (toString n)).data, ?_⟩⟩ <;>
      simp [strContains, buildAuthURL, monzoAuthURL, hq, ha, String.data_append]

/-- C7 counterexample: the claim says a request with an `error` query
parameter present is signalled as a structured error.  The handler only
tests whether `Values.Get` returns a non-empty string, so a request
carrying a present-but-empty `error` parameter together with a code is
signalled as success, not as an error. -/
theorem C7_empty_error_param_counterexample :
    (("error"), ("" : String)) ∈ ([(("error"), ""), (("code"), "abc")] : Query) ∧
    callbackHandler [(("error"), ""), (("code"), "abc")] = .code ("abc") := by
  exact ⟨by decide, rfl⟩

/-- C7 (amended): for every callback query, if the `error` parameter
value read by `Values.Get` is non-empty the handler signals a
structured error carrying the `error` and `error_description` values;
if both the `error` and `code` values are empty (absent or literally
empty) it signals the no-code error; otherwise it signals the `code`
value as success. -/
theorem C7_callback_signal (q : Query) :
    (queryGet q ("error") ≠ "" →
      callbackHandler q = .authError (queryGet q ("error"))
        (queryGet q ("error_description"))) ∧
    (queryGet q ("error") = "" → queryGet q ("code") = "" →
      callbackHandler q = .noCode) ∧
    (queryGet q ("error") = "" → queryGet q ("code") ≠ "" →
      callbackHandler q = .code (queryGet q ("code"))) := by
  refine ⟨fun h => ?_, fun h h2 => ?_, fun h h2 => ?_⟩
  · simp [callbackHandler, h]
  · simp [callbackHandler, h, h2]
  · simp [callbackHandler, h, h2]

/-- Witness for C7 (amended): each of the three branches discharged on
a concrete query. -/
theorem C7_callback_signal_witness :
    callbackHandler [(("error"), "access_denied"),
        (("error_description"), "User declined")] =
      .authError ("access_denied") ("User declined") ∧
    callbackHandler ([] : Query) = .noCode ∧
    callbackHandler [(("code"), "authcode42")] = .code ("authcode42") :=
  ⟨(C7_callback_signal [(("error"), "access_denied"),
      (("error_description"), "User declined")]).1 (by decide),
   (C7_callback_signal ([] : Query)).2.1 (by decide) (by decide),
   (C7_callback_signal [(("code"), "authcode42")]).2.2 (by decide) (by decide)⟩

/-- C8: for every stored credential whose `expires_at` lies in the
future, `loadToken` returns exactly the stored credential fields, with
a single file read as its whole effect trace: no HTTP request and no
write to the credential file. -/
theorem C8_loadToken_valid_returned_unchanged
    (t : TokenResponse) (expiresAt now : Int) (_hfuture : now < expiresAt) :
    loadToken (.present (.obj (storedTokenObj t expiresAt))) =
      (.ok t, [.fileRead]) := by
  cases t with
  | mk a ty ei r sc u =>
    by_cases hr : r = "" <;>
      simp [loadToken, storedTokenObj, marshalTokenResponse, unmarshalTokenResponse,
        getStrField, getIntField, jlookup, hr]

/-- Witness for C8: the valid token of `TestLoadTokenWithValidToken`,
expiring six hours after the sampled call time. -/
theorem C8_loadToken_valid_returned_unchanged_witness :
    (1760000000 : Int) < 1760021600 ∧
    loadToken (.present (.obj (storedTokenObj
        ⟨("valid_access_token"), ("Bearer"), 21600, ("valid_refresh_token"),
          (""), ("user_123")⟩ 1760021600))) =
      (.ok ⟨("valid_access_token"), ("Bearer"), 21600, ("valid_refresh_token"),
          (""), ("user_123")⟩, [.fileRead]) :=
  ⟨by decide,
   C8_loadToken_valid_returned_unchanged
     ⟨("valid_access_token"), ("Bearer"), 21600, ("valid_refresh_token"),
       (""), ("user_123")⟩ 1760021600 1760000000 (by decide)⟩

/-- C9 counterexample: the claim says two invocations of `buildAuthURL`
with the same client identifier and redirect URI produce the same URL.
The `state` parameter is the `UnixNano` clock reading, so invocations
at two different instants produce different URLs. -/
theorem C9_same_inputs_different_urls_counterexample :
    buildAuthURL ("abc") ("http://localhost:8080/callback") 0 ≠
      buildAuthURL ("abc") ("http://localhost:8080/callback") 1 := by
  decide

/-- C9 (amended): `buildAuthURL` is a deterministic function of the
client identifier, the redirect URI and the clock reading: invocations
observing the same `UnixNano` value produce identical URLs, and for any
two clock readings the outputs share the same base and differ only in
the escaped `state` value.  (It performs no network access: the
embedding is a pure function of these three inputs.) -/
theorem C9_deterministic_given_clock :
    (∀ (cid ruri : String) (n₁ n₂ : Int), n₁ = n₂ →
      buildAuthURL cid ruri n₁ = buildAuthURL cid ruri n₂) ∧
    (∀ (cid ruri : String) (n₁ n₂ : Int), ∃ base : String,
      buildAuthURL cid ruri n₁ = base ++ queryEscape (toString n₁) ∧
      buildAuthURL cid ruri n₂ = base ++ queryEscape (toString n₂)) := by
  refine ⟨?_, ?_⟩
  · intro cid ruri n₁ n₂ h
    rw [h]
  · intro cid ruri n₁ n₂
    exact ⟨monzoAuthURL ++ "/?" ++ "client_id=" ++ queryEscape cid ++
      "&redirect_uri=" ++ queryEscape ruri ++ "&response_type=code" ++ "&state=",
      rfl, rfl⟩

/-- Witness for C9 (amended): the determinism branch discharged at a
concrete equal pair of clock readings. -/
theorem C9_deterministic_given_clock_witness :
    buildAuthURL ("abc") ("http://localhost:8080/callback") 5 =
      buildAuthURL ("abc") ("http://localhost:8080/callback") 5 :=
  C9_deterministic_given_clock.1 ("abc") ("http://localhost:8080/callback") 5 5 rfl

/-- C10: when the config file is absent `LoadConfig` returns a `Config`
with empty client id and client secret and no error; it returns an
error only when the file exists: either it cannot be read (other than
not-exists) or its content cannot be decoded as the `Config` object. -/
theorem C10_LoadConfig_absent_is_empty_ok :
    LoadConfig .absent = .ok ⟨"", ""⟩ ∧
    ∀ (fs : FileState) (e : CfgErr), LoadConfig fs = .error e →
      (fs = .unreadable ∧ e = .readFailed) ∨
      (fs = .present .malformed ∧ e = .decodeFailed) ∨
      (∃ o : Jobj, fs = .present (.obj o) ∧ unmarshalConfig o = none ∧
        e = .decodeFailed) := by
  refine ⟨rfl, ?_⟩
  intro fs e h
  match fs with
  | .absent => exact absurd h (by simp [LoadConfig])
  | .unreadable =>
    left
    simp [LoadConfig] at h
    simp [h]
  | .present .malformed =>
    right; left
    simp [LoadConfig] at h
    simp [h]
  | .present (.obj o) =>
    right; right
    refine ⟨o, rfl, ?_⟩
    cases hu : unmarshalConfig o with
    | none =>
      simp [LoadConfig, hu] at h
      simp [hu, h]
    | some c => simp [LoadConfig, hu] at h

/-- Witness for C10: the error branch discharged on a concrete
unreadable file state. -/
theorem C10_LoadConfig_absent_is_empty_ok_witness :
    (FileState.unreadable = FileState.unreadable ∧
      CfgErr.readFailed = CfgErr.readFailed) ∨
    (FileState.unreadable = FileState.present .malformed ∧
      CfgErr.readFailed = CfgErr.decodeFailed) ∨
    (∃ o : Jobj, FileState.unreadable = FileState.present (.obj o) ∧
      unmarshalConfig o = none ∧ CfgErr.readFailed = CfgErr.decodeFailed) :=
  C10_LoadConfig_absent_is_empty_ok.2 .unreadable .readFailed rfl

end Monzo
